import Mathlib

/-!
Shallow embedding of the DNA-read filtering pipeline
(`search_functions.py`, `helper_functions.py`, `main_sequence_filtering.py`,
`naive_dna_sequence_filter.py`, `learning_helper_functions.py`, `config.py`).

Reads and primers are `List Char`.  Python string primitives (`find`, slicing,
`rstrip`) are modelled exactly.  The BioPython pairwise aligner is an oracle:
an `Aligner` carries the four scoring parameters plus an abstract score
function, and the lists of score-qualifying alignments (pairs of start/end
positions, as produced by `get_alignment_positions`) are taken as inputs.
Numeric scores (Python floats treated as reals by the spec) are `Rat`.
The configuration has `MACHINE_LEARNING_MODE = True`, so the embedded search
functions return the dataset validator's verdict and perform no file output;
file writes and debug traces are side effects with no influence on any
return value and are not modelled.
-/

set_option maxRecDepth 20000

/-- Embeds `search_functions.MatchResult`: terminal classification of one read. -/
inductive MatchResult where
  | FOUND_VALID_MATCH
  | FOUND_INVALID_MATCH
  | NO_MATCH_FOUND
deriving DecidableEq, Repr

open MatchResult

/- ******************* Python string primitives ******************* -/

/-- Auxiliary scan for `str.find`: first index at or after `i` where `sub`
occurs in the remaining suffix, `-1` if none. -/
def pyFindAux (sub : List Char) : List Char → Nat → Int
  | [], i => if sub.isPrefixOf ([] : List Char) then (i : Int) else -1
  | c :: t, i => if sub.isPrefixOf (c :: t) then (i : Int) else pyFindAux sub t (i + 1)

/-- Python `s.find(sub)`: lowest index of an occurrence of `sub` in `s`,
`-1` when there is none. -/
def pyFind (s sub : List Char) : Int := pyFindAux sub s 0

/-- Python slice `s[a:b]` with int indices (negative indices count from the
end, out-of-range indices are clamped). -/
def pySlice (s : List Char) (a b : Int) : List Char :=
  let n := s.length
  let a2 : Nat := if a < 0 then (n + a).toNat else min a.toNat n
  let b2 : Nat := if b < 0 then (n + b).toNat else min b.toNat n
  (s.drop a2).take (b2 - a2)

/-- Python `s.rstrip()`: drop trailing whitespace. -/
def pyRstrip (s : List Char) : List Char :=
  (s.reverse.dropWhile Char.isWhitespace).reverse

/- ******************* helper_functions.py ******************* -/

/-- The complement map of `helper_functions.copy_reverse_complement`.
The source dictionary is defined only on A, C, G, T (a `KeyError` otherwise);
other characters, which never occur in the inputs the claims concern, are
mapped to themselves. -/
def complement_base (c : Char) : Char :=
  if c = 'A' then 'T'
  else if c = 'C' then 'G'
  else if c = 'G' then 'C'
  else if c = 'T' then 'A'
  else c

/-- Embeds `helper_functions.copy_reverse_complement`: rstrip, complement each base,
then reverse. -/
def copy_reverse_complement (sequence : List Char) : List Char :=
  ((pyRstrip sequence).map complement_base).reverse

/- ******************* config.py ******************* -/

/-- Embeds `config.INDEX_LEN`. -/
def INDEX_LEN : Nat := 12

/-- Embeds `config.LIB_LENGTH`. -/
def LIB_LENGTH : Nat := 140

/-- Embeds `config.FRONT_PRIMER`. -/
def FRONT_PRIMER : List Char := "TCGTCGGCAGCGTCAGATGTGTATAAGAGACAG".toList

/-- Embeds `config.BACK_PRIMER`. -/
def BACK_PRIMER : List Char := "CTGTCTCTTATACACATCTCCGAGCCCACGAGAC".toList

/- ******************* Alignment adapter ******************* -/

/-- A configured `PairwiseAligner`: the four scoring parameters plus the
alignment oracle `alignScore a b`, standing for `aligner.align(a, b)[0].score`
(the best alignment's score under the configured mode and parameters). -/
structure Aligner where
  match_score : Rat
  mismatch_score : Rat
  open_gap_score : Rat
  extend_gap_score : Rat
  alignScore : List Char → List Char → Rat

/-- Embeds `helper_functions.percentage_to_min_score`. -/
def percentage_to_min_score (aligner : Aligner) (wanted_match_percentage : Rat)
    (length : Nat) : Rat :=
  let max_score := aligner.match_score * length
  let avg_penalty :=
    (aligner.mismatch_score + aligner.open_gap_score + aligner.extend_gap_score) / 3
  let penalty_score := avg_penalty * (1 - wanted_match_percentage) * length
  let match_score := max_score * wanted_match_percentage
  match_score + penalty_score

/- ******************* Dataset validator ******************* -/

/-- The `compare_params` dictionary built in
`main_sequence_filtering.run_filtering`: the global-mode aligner and the
precomputed index minimum score. -/
structure CompareParams where
  aligner : Aligner
  min_valid_score : Rat

/-- The reference scan inside `search_functions.compare_seq_to_dataset`:
walk the dataset in stored order, skip empty entries, and return
FOUND_VALID_MATCH at the first entry whose index-prefix score reaches
`idx_min` and whose full-sequence score reaches `full_min`. -/
def compare_scan (al : Aligner) (idx_min full_min : Rat)
    (sequence_index sequence : List Char) : List (List Char) → MatchResult
  | [] => FOUND_INVALID_MATCH
  | data_set_seq :: rest =>
    if data_set_seq.length = 0 then
      compare_scan al idx_min full_min sequence_index sequence rest
    else
      let data_set_seq_index := data_set_seq.take INDEX_LEN
      if idx_min ≤ al.alignScore sequence_index data_set_seq_index then
        if full_min ≤ al.alignScore sequence data_set_seq then FOUND_VALID_MATCH
        else compare_scan al idx_min full_min sequence_index sequence rest
      else compare_scan al idx_min full_min sequence_index sequence rest

/-- Embeds `search_functions.compare_seq_to_dataset`.  The dataset (read from
`DATA_SET_PATH` by `read_sequences_from_data_set`) is a parameter. -/
def compare_seq_to_dataset (data_set_sequences : List (List Char))
    (compare_params : CompareParams) (sequence : List Char) : MatchResult :=
  let min_valid_score :=
    percentage_to_min_score compare_params.aligner 0.85 sequence.length
  let sequence_index := sequence.take INDEX_LEN
  compare_scan compare_params.aligner compare_params.min_valid_score
    min_valid_score sequence_index sequence data_set_sequences

/- ******************* Both primers ******************* -/

/-- The distance-window test of `search_both_primers_helper`:
`LIB_LENGTH - 5 <= b_start - f_end <= LIB_LENGTH + 5`, with the expected
length `lib` as a parameter (the source reads the global `LIB_LENGTH`). -/
def qualifies (lib : Nat) (f b : Nat × Nat) : Bool :=
  decide ((lib : Int) - 5 ≤ (b.1 : Int) - (f.2 : Int) ∧
          (b.1 : Int) - (f.2 : Int) ≤ (lib : Int) + 5)

/-- Inner loop of `search_functions.search_both_primers_helper` for one
front alignment `f`: scan the back alignments; at the first qualifying one,
extract `sequence[f_end:b_start]`, reverse-complement it when `is_reversed`,
and return the dataset verdict (`validate` stands for
`compare_seq_to_dataset` with its parameters fixed).  `none` means the loop
fell through. -/
def search_both_inner (lib : Nat) (validate : List Char → MatchResult)
    (sequence : List Char) (is_reversed : Bool) (f : Nat × Nat) :
    List (Nat × Nat) → Option MatchResult
  | [] => none
  | b :: rest =>
    if qualifies lib f b then
      let seq_without_primers := pySlice sequence (f.2 : Int) (b.1 : Int)
      let seq_without_primers :=
        if is_reversed then copy_reverse_complement seq_without_primers
        else seq_without_primers
      some (validate seq_without_primers)
    else search_both_inner lib validate sequence is_reversed f rest

/-- Embeds `search_functions.search_both_primers_helper`: front-alignment-major,
back-alignment-minor scan; the first qualifying pair returns the dataset
verdict on the carved span (`MACHINE_LEARNING_MODE` is on). -/
def search_both_primers_helper (lib : Nat) (validate : List Char → MatchResult)
    (sequence : List Char) (is_reversed : Bool) :
    List (Nat × Nat) → List (Nat × Nat) → MatchResult
  | [], _ => NO_MATCH_FOUND
  | f :: rest, backs =>
    match search_both_inner lib validate sequence is_reversed f backs with
    | some r => r
    | none => search_both_primers_helper lib validate sequence is_reversed rest backs

/-- Embeds `search_functions.search_both_primers`: forward orientation first, then
reverse complement; the first result other than NO_MATCH_FOUND wins. -/
def search_both_primers (lib : Nat) (validate : List Char → MatchResult)
    (sequence : List Char)
    (valid_alignments valid_alignments_rc : List (Nat × Nat) × List (Nat × Nat)) :
    MatchResult :=
  let search_res := search_both_primers_helper lib validate sequence false
    valid_alignments.1 valid_alignments.2
  if search_res ≠ NO_MATCH_FOUND then search_res
  else
    let search_res_rc := search_both_primers_helper lib validate sequence true
      valid_alignments_rc.1 valid_alignments_rc.2
    if search_res_rc ≠ NO_MATCH_FOUND then search_res_rc
    else NO_MATCH_FOUND

/- ******************* Single primer ******************* -/

/-- Embeds `search_functions.search_single_front_primer_helper`: for each front
alignment, the candidate window is `[f_end, f_end + LIB_LENGTH)`; the source
skips it when `end_pos >= len(sequence)`, otherwise returns the dataset
verdict on the carved window. -/
def search_single_front_primer_helper (lib : Nat)
    (validate : List Char → MatchResult) (sequence : List Char)
    (is_reversed : Bool) : List (Nat × Nat) → MatchResult
  | [] => NO_MATCH_FOUND
  | f_align :: rest =>
    let start_pos := f_align.2
    let end_pos := start_pos + lib
    if sequence.length ≤ end_pos then
      search_single_front_primer_helper lib validate sequence is_reversed rest
    else
      let seq_without_primers := pySlice sequence (start_pos : Int) (end_pos : Int)
      let seq_without_primers :=
        if is_reversed then copy_reverse_complement seq_without_primers
        else seq_without_primers
      validate seq_without_primers

/-- Embeds `search_functions.search_single_back_primer_helper`: for each back
alignment, the candidate window is `[b_start - LIB_LENGTH, b_start)`; the
source skips it when `start_pos < 0`, otherwise returns the dataset verdict
on the carved window. -/
def search_single_back_primer_helper (lib : Nat)
    (validate : List Char → MatchResult) (sequence : List Char)
    (is_reversed : Bool) : List (Nat × Nat) → MatchResult
  | [] => NO_MATCH_FOUND
  | b_align :: rest =>
    let end_pos := b_align.1
    let start_pos : Int := (end_pos : Int) - (lib : Int)
    if start_pos < 0 then
      search_single_back_primer_helper lib validate sequence is_reversed rest
    else
      let seq_without_primers := pySlice sequence start_pos (end_pos : Int)
      let seq_without_primers :=
        if is_reversed then copy_reverse_complement seq_without_primers
        else seq_without_primers
      validate seq_without_primers

/-- Embeds `search_functions.search_single_primer`: front/forward, front/reverse,
back/forward, back/reverse; first result other than NO_MATCH_FOUND wins. -/
def search_single_primer (lib : Nat) (validate : List Char → MatchResult)
    (sequence : List Char)
    (valid_alignments valid_alignments_rc : List (Nat × Nat) × List (Nat × Nat)) :
    MatchResult :=
  let r1 := search_single_front_primer_helper lib validate sequence false
    valid_alignments.1
  if r1 ≠ NO_MATCH_FOUND then r1
  else
    let r2 := search_single_front_primer_helper lib validate sequence true
      valid_alignments_rc.1
    if r2 ≠ NO_MATCH_FOUND then r2
    else
      let r3 := search_single_back_primer_helper lib validate sequence false
        valid_alignments.2
      if r3 ≠ NO_MATCH_FOUND then r3
      else
        let r4 := search_single_back_primer_helper lib validate sequence true
          valid_alignments_rc.2
        if r4 ≠ NO_MATCH_FOUND then r4
        else NO_MATCH_FOUND

/- ******************* Exact match ******************* -/

/-- Embeds `search_functions.search_exact_match`, faithful to the source:
`f_end = sequence.find(front_primer)` and `b_start = sequence.find(back_primer)`
(both are the *start* index of the first occurrence, or -1), and the carved
span is `sequence[f_end:b_start]`, accepted when its length is within
`[LIB_LENGTH - 5, LIB_LENGTH + 5]`.  Returns the carved
`seq_without_primers` on success (`some`), `none` when the source returns
`False`. -/
def search_exact_match (lib : Nat) (sequence : List Char)
    (primers : List Char × List Char) : Option (List Char) :=
  let front_primer := primers.1
  let back_primer := primers.2
  let f_end := pyFind sequence front_primer
  let b_start := pyFind sequence back_primer
  if f_end ≠ -1 ∧ b_start ≠ -1 then
    let seq_without_primers := pySlice sequence f_end b_start
    if (lib : Int) - 5 ≤ (seq_without_primers.length : Int) ∧
        (seq_without_primers.length : Int) ≤ (lib : Int) + 5 then
      some seq_without_primers
    else none
  else none

/- ******************* Main search function ******************* -/

/-- Embeds `search_functions.search_seq_and_write`.  The aligner is an oracle:
`get_valid` stands for `get_valid_alignments aligner min_valid_score sequence`
as a function of the primer pair, returning the score-qualifying
(front, back) alignment position lists; `validate` stands for
`compare_seq_to_dataset compare_params`. -/
def search_seq_and_write (lib : Nat) (primers : List Char × List Char)
    (get_valid : List Char × List Char → List (Nat × Nat) × List (Nat × Nat))
    (validate : List Char → MatchResult) (sequence : List Char) : MatchResult :=
  let primers_rc := (copy_reverse_complement primers.2, copy_reverse_complement primers.1)
  if (search_exact_match lib sequence primers).isSome ||
      (search_exact_match lib sequence primers_rc).isSome then
    FOUND_VALID_MATCH
  else
    let valid_alignments := get_valid primers
    let valid_alignments_rc := get_valid primers_rc
    let search_res := search_both_primers lib validate sequence
      valid_alignments valid_alignments_rc
    if search_res ≠ NO_MATCH_FOUND then search_res
    else
      let search_res2 := search_single_primer lib validate sequence
        valid_alignments valid_alignments_rc
      if search_res2 ≠ NO_MATCH_FOUND then search_res2
      else NO_MATCH_FOUND

/- ******************* main_sequence_filtering.py ******************* -/

/-- Embeds `main_sequence_filtering.INVALID_FIELD`. -/
def INVALID_FIELD : Int := -1

/-- Embeds `main_sequence_filtering.Statistics`. -/
structure Statistics where
  seq_count : Nat
  filtered_out_count : Nat
  valid_seq_count : Nat
  invalid_seq_count : Nat
  percent_filtered : Rat
  loss : Rat
  file_name : String
deriving DecidableEq, Repr

/-- Embeds `Statistics.__init__`: zero counters, `percent_filtered = 0.0`,
`loss = INVALID_FIELD`, empty file name. -/
def Statistics.init : Statistics :=
  { seq_count := 0, filtered_out_count := 0, valid_seq_count := 0,
    invalid_seq_count := 0, percent_filtered := 0, loss := (INVALID_FIELD : Int),
    file_name := "" }

/-- The classification loop of `main_sequence_filtering.process_file`:
`(valid_seq_count, invalid_seq_count, filtered_out_count)` accumulated over
the file's sequences.  `classify` stands for `search_seq_and_write` with the
aligner, thresholds and output files fixed. -/
def classify_counts (classify : List Char → MatchResult) :
    List (List Char) → Nat × Nat × Nat
  | [] => (0, 0, 0)
  | seq_input :: rest =>
    let c := classify_counts classify rest
    match classify seq_input with
    | FOUND_VALID_MATCH => (c.1 + 1, c.2.1, c.2.2)
    | FOUND_INVALID_MATCH => (c.1, c.2.1 + 1, c.2.2)
    | NO_MATCH_FOUND => (c.1, c.2.1, c.2.2 + 1)

/-- Embeds `main_sequence_filtering.process_file` in `MACHINE_LEARNING_MODE`:
classify every sequence of the file (the distinct sequences produced by
`read_FASTQ_file`) and fill the per-file `Statistics`;
`percent_filtered` is set to `(filtered_out_count/seq_count)*100` only when
`seq_count != 0` and otherwise stays at its initial `0`. -/
def process_file (classify : List Char → MatchResult)
    (seqs : List (List Char)) (base_filename : String) : Statistics :=
  let seq_count := seqs.length
  let c := classify_counts classify seqs
  { seq_count := seq_count,
    filtered_out_count := c.2.2,
    valid_seq_count := c.1,
    invalid_seq_count := c.2.1,
    percent_filtered :=
      if seq_count ≠ 0 then ((c.2.2 : Rat) / (seq_count : Rat)) * 100 else 0,
    loss := (INVALID_FIELD : Int),
    file_name := base_filename }

/-- One aggregation step of `main_sequence_filtering.run_filtering`
(lines 144-149): add the four counters of a completed file's statistics to
the evaluation statistics and refresh `percent_filtered` when the running
`seq_count` is nonzero. -/
def accumulate_stats (eval_stats file_stats : Statistics) : Statistics :=
  let ev :=
    { eval_stats with
      seq_count := eval_stats.seq_count + file_stats.seq_count,
      filtered_out_count :=
        eval_stats.filtered_out_count + file_stats.filtered_out_count,
      valid_seq_count := eval_stats.valid_seq_count + file_stats.valid_seq_count,
      invalid_seq_count :=
        eval_stats.invalid_seq_count + file_stats.invalid_seq_count }
  if ev.seq_count ≠ 0 then
    { ev with percent_filtered :=
        ((ev.filtered_out_count : Rat) / (ev.seq_count : Rat)) * 100 }
  else ev

/-- The fan-in of `run_filtering`: fold the per-file statistics into one
evaluation-level `Statistics` starting from a fresh `Statistics`. -/
def aggregate_stats (file_stats_list : List Statistics) : Statistics :=
  file_stats_list.foldl accumulate_stats Statistics.init

/- ******************* learning_helper_functions.py ******************* -/

/-- Embeds `learning_helper_functions.score_comparison`: 100 penalty when the
evaluation filtered a larger percentage than the naive baseline, plus
`(invalid_seq_count / seq_count) * 100`.  The source's
`assert(eval_stats.seq_count > 0)` is modelled as `none` (fatal assertion
failure). -/
def score_comparison (naive_percent_filtered : Rat) (eval_stats : Statistics) :
    Option Rat :=
  let score : Rat := 0
  let score :=
    if naive_percent_filtered < eval_stats.percent_filtered then score + 100
    else score
  if 0 < eval_stats.seq_count then
    some (score + ((eval_stats.invalid_seq_count : Rat) / (eval_stats.seq_count : Rat)) * 100)
  else none

/- ******************* naive_dna_sequence_filter.py ******************* -/

/-- Embeds `naive_dna_sequence_filter.naive_search_and_write_seq`, with the
expected length `lib` as a parameter (the source reads the global
`LIB_LENGTH`). -/
def naive_search_and_write_seq (lib : Nat) (sequence front_primer back_primer : List Char) :
    Bool :=
  let front_index := pyFind sequence front_primer
  let back_index := pyFind sequence back_primer
  if front_index ≠ -1 ∧ back_index ≠ -1 then
    let seq_without_primers :=
      pySlice sequence (front_index + front_primer.length) back_index
    decide (((seq_without_primers.length : Int) - (lib : Int)).natAbs ≤ 5)
  else if front_index ≠ -1 then
    let seq_without_primers :=
      pySlice sequence (front_index + front_primer.length)
        (min (sequence.length : Int) (front_index + front_primer.length + lib))
    decide (((seq_without_primers.length : Int) - (lib : Int)).natAbs ≤ 5)
  else if back_index ≠ -1 then
    let seq_without_primers :=
      pySlice sequence (max 0 (back_index - (lib : Int))) back_index
    decide (((seq_without_primers.length : Int) - (lib : Int)).natAbs ≤ 5)
  else false

/-- The counting loop of `naive_dna_sequence_filter.naive_filtering_of_file`:
a sequence is filtered when the naive search fails for the forward primer
pair and for the reverse-complement pair. -/
def naive_count_filtered (lib : Nat) (front back front_rc back_rc : List Char) :
    List (List Char) → Nat
  | [] => 0
  | sequence :: rest =>
    (if ¬ naive_search_and_write_seq lib sequence front back ∧
        ¬ naive_search_and_write_seq lib sequence front_rc back_rc then 1 else 0)
      + naive_count_filtered lib front back front_rc back_rc rest

/-- Embeds `naive_dna_sequence_filter.naive_filtering_of_file`: the pair
(filtered count, total sequence count) for one file's sequences. -/
def naive_filtering_of_file (lib : Nat) (front back front_rc back_rc : List Char)
    (seqs : List (List Char)) : Nat × Nat :=
  (naive_count_filtered lib front back front_rc back_rc seqs, seqs.length)

/-- Embeds `naive_dna_sequence_filter.naive_filtering_percent_of_dir`: sum the
per-file counts over the directory's files and return
`(total_filtered / total_sequences) * 100`.  The source's
`assert(total_sequences > 0)` is modelled as `none` (fatal assertion
failure). -/
def naive_filtering_percent_of_dir (lib : Nat) (front back : List Char)
    (files : List (List (List Char))) : Option Rat :=
  let front_rc := copy_reverse_complement back
  let back_rc := copy_reverse_complement front
  let totals := files.foldl
    (fun acc seqs =>
      let r := naive_filtering_of_file lib front back front_rc back_rc seqs
      (acc.1 + r.1, acc.2 + r.2))
    ((0 : Nat), (0 : Nat))
  if 0 < totals.2 then some (((totals.1 : Rat) / (totals.2 : Rat)) * 100)
  else none

/- ******************* Specification-side definitions ******************* -/

/-- Specification-side (follows the spec's words, for comparison with the
loop in `search_both_primers_helper`): the first pair of a qualifying front
alignment and a qualifying back alignment, in front-alignment-major,
back-alignment-minor order, whose distance is within the tolerance window. -/
def firstQualifyingPair (lib : Nat) (fronts backs : List (Nat × Nat)) :
    Option ((Nat × Nat) × (Nat × Nat)) :=
  (fronts.flatMap fun f => backs.map fun b => (f, b)).find? fun p => qualifies lib p.1 p.2

/-- The conservation equation of the claim on `Statistics`: every read is
counted in exactly one of the three classification counters. -/
def stats_conservation (st : Statistics) : Prop :=
  st.filtered_out_count + st.valid_seq_count + st.invalid_seq_count = st.seq_count

/- ******************* Concrete instances for evaluations ******************* -/

/-- A read made of the configured front primer, a 140-base insert and the
configured back primer, in order: the canonical perfect-adapter read. -/
def perfect_adapter_read : List Char :=
  FRONT_PRIMER ++ List.replicate 140 'A' ++ BACK_PRIMER

/-- A concrete aligner configuration (scores from `config.DEFAULT_SCORES`,
rounded; the oracle score is irrelevant to the threshold formula). -/
def sample_aligner : Aligner :=
  { match_score := 4, mismatch_score := -3, open_gap_score := -4,
    extend_gap_score := -2, alignScore := fun _ _ => 0 }

/-- A concrete global-mode aligner whose oracle always reports score 100. -/
def sample_global_aligner : Aligner :=
  { match_score := 1, mismatch_score := -1, open_gap_score := -1,
    extend_gap_score := -1, alignScore := fun _ _ => 100 }

/-- Concrete comparison parameters as `run_filtering` builds them: the
index minimum comes from `percentage_to_min_score` at 0.85 and `INDEX_LEN`. -/
def sample_compare_params : CompareParams :=
  { aligner := sample_global_aligner,
    min_valid_score := percentage_to_min_score sample_global_aligner 0.85 INDEX_LEN }

/-- Concrete statistics of a one-read evaluation. -/
def sample_stats : Statistics :=
  { seq_count := 1, filtered_out_count := 0, valid_seq_count := 1,
    invalid_seq_count := 0, percent_filtered := 0, loss := (INVALID_FIELD : Int),
    file_name := "" }

/- ******************* General lemmas ******************* -/

theorem classify_counts_sum (classify : List Char → MatchResult) :
    ∀ seqs : List (List Char),
      (classify_counts classify seqs).2.2 + (classify_counts classify seqs).1 +
        (classify_counts classify seqs).2.1 = seqs.length := by
  intro seqs
  induction seqs with
  | nil => rfl
  | cons s rest ih =>
    simp only [classify_counts, List.length_cons]
    cases classify s <;> simp only [] <;> omega

theorem naive_count_filtered_le (lib : Nat) (front back front_rc back_rc : List Char) :
    ∀ seqs : List (List Char),
      naive_count_filtered lib front back front_rc back_rc seqs ≤ seqs.length := by
  intro seqs
  induction seqs with
  | nil => simp [naive_count_filtered]
  | cons s rest ih =>
    simp only [naive_count_filtered, List.length_cons]
    split <;> omega

theorem naive_totals_spec (lib : Nat) (front back front_rc back_rc : List Char) :
    ∀ (files : List (List (List Char))) (acc : Nat × Nat),
      files.foldl
        (fun acc seqs =>
          let r := naive_filtering_of_file lib front back front_rc back_rc seqs
          (acc.1 + r.1, acc.2 + r.2)) acc =
      (acc.1 + (files.map fun s =>
          naive_count_filtered lib front back front_rc back_rc s).sum,
        acc.2 + (files.map List.length).sum) := by
  intro files
  induction files with
  | nil => intro acc; simp
  | cons f rest ih =>
    intro acc
    rw [List.foldl_cons, ih]
    simp only [List.map_cons, List.sum_cons, naive_filtering_of_file,
      Prod.mk.injEq]
    constructor <;> omega

theorem ratio_percent_bounds (f n : Nat) (hfn : f ≤ n) (hn : 0 < n) :
    0 ≤ ((f : Rat) / (n : Rat)) * 100 ∧ ((f : Rat) / (n : Rat)) * 100 ≤ 100 := by
  have hn1 : (0 : Rat) < (n : Rat) := by exact_mod_cast hn
  constructor
  · positivity
  · have h1 : (f : Rat) / (n : Rat) ≤ 1 := by
      rw [div_le_one hn1]
      exact_mod_cast hfn
    calc ((f : Rat) / (n : Rat)) * 100 ≤ 1 * 100 :=
          mul_le_mul_of_nonneg_right h1 (by norm_num)
      _ = 100 := by norm_num

theorem search_both_inner_eq (lib : Nat) (validate : List Char → MatchResult)
    (sequence : List Char) (is_reversed : Bool) (f : Nat × Nat) :
    ∀ backs : List (Nat × Nat),
      search_both_inner lib validate sequence is_reversed f backs =
        (backs.find? fun b => qualifies lib f b).map fun b =>
          validate
            (if is_reversed then
              copy_reverse_complement (pySlice sequence (f.2 : Int) (b.1 : Int))
            else pySlice sequence (f.2 : Int) (b.1 : Int)) := by
  intro backs
  induction backs with
  | nil => rfl
  | cons b rest ih =>
    by_cases h : qualifies lib f b
    · simp [search_both_inner, List.find?_cons, h]
    · simp only [search_both_inner, List.find?_cons] at ih ⊢
      rw [if_neg h, ih]
      cases hq : qualifies lib f b
      · rfl
      · exact absurd hq h

theorem firstQualifyingPair_cons (lib : Nat) (f : Nat × Nat)
    (rest backs : List (Nat × Nat)) :
    firstQualifyingPair lib (f :: rest) backs =
      ((backs.find? fun b => qualifies lib f b).map fun b => (f, b)).or
        (firstQualifyingPair lib rest backs) := by
  simp only [firstQualifyingPair, List.flatMap_cons, List.find?_append,
    List.find?_map]
  rfl

theorem search_both_primers_helper_eq (lib : Nat)
    (validate : List Char → MatchResult) (sequence : List Char)
    (is_reversed : Bool) :
    ∀ (fronts backs : List (Nat × Nat)),
      search_both_primers_helper lib validate sequence is_reversed fronts backs =
        match firstQualifyingPair lib fronts backs with
        | some p =>
          validate
            (if is_reversed then
              copy_reverse_complement (pySlice sequence (p.1.2 : Int) (p.2.1 : Int))
            else pySlice sequence (p.1.2 : Int) (p.2.1 : Int))
        | none => NO_MATCH_FOUND := by
  intro fronts
  induction fronts with
  | nil => intro backs; rfl
  | cons f rest ih =>
    intro backs
    rw [firstQualifyingPair_cons]
    simp only [search_both_primers_helper, search_both_inner_eq]
    cases hfb : backs.find? fun b => qualifies lib f b with
    | some b => simp [hfb]
    | none => simp [hfb, ih]

/- ******************* Claim theorems ******************* -/

/-- C8: for every scoring configuration, match-percentage in [0,1] and
length, `percentage_to_min_score` equals
`match_score * length * pct + ((mismatch + open_gap + extend_gap) / 3) * (1 - pct) * length`,
and it is a deterministic pure function of its inputs (two invocations with
identical inputs yield identical values). -/
theorem C8_min_score_formula (aligner : Aligner) (pct : Rat) (length : Nat)
    (_h0 : 0 ≤ pct) (_h1 : pct ≤ 1) :
    percentage_to_min_score aligner pct length =
      aligner.match_score * (length : Rat) * pct +
        ((aligner.mismatch_score + aligner.open_gap_score +
          aligner.extend_gap_score) / 3) * (1 - pct) * (length : Rat) ∧
    percentage_to_min_score aligner pct length =
      percentage_to_min_score aligner pct length := by
  refine ⟨?_, rfl⟩
  unfold percentage_to_min_score
  ring

/-- Witness for C8 at the sample aligner, pct 0.85 and length 33. -/
theorem C8_min_score_formula_witness :
    percentage_to_min_score sample_aligner 0.85 33 =
      sample_aligner.match_score * (33 : Rat) * 0.85 +
        ((sample_aligner.mismatch_score + sample_aligner.open_gap_score +
          sample_aligner.extend_gap_score) / 3) * (1 - 0.85) * (33 : Rat) :=
  (C8_min_score_formula sample_aligner 0.85 33 (by norm_num) (by norm_num)).1

/-- C6: for every trial whose aggregate seq_count is positive, the loss is
(100 if percent_filtered strictly exceeds the naive baseline, else 0) plus
`(invalid_seq_count / seq_count) * 100`. -/
theorem C6_loss_formula (naive_percent_filtered : Rat) (eval_stats : Statistics)
    (h : 0 < eval_stats.seq_count) :
    score_comparison naive_percent_filtered eval_stats =
      some ((if naive_percent_filtered < eval_stats.percent_filtered then (100 : Rat)
              else 0) +
        ((eval_stats.invalid_seq_count : Rat) / (eval_stats.seq_count : Rat)) * 100) := by
  unfold score_comparison
  rw [if_pos h]
  split <;> norm_num

/-- Witness for C6 at a concrete one-read evaluation. -/
theorem C6_loss_formula_witness : score_comparison 50 sample_stats = some 0 :=
  (C6_loss_formula 50 sample_stats (by decide)).trans (by norm_num [sample_stats])

/-- C7: computing the naive baseline over a corpus with zero total
sequences, and computing a trial's loss when the aggregate seq_count is 0,
each hit the source's `assert` (modelled as `none`) rather than returning a
value. -/
theorem C7_empty_corpus_fatal :
    (∀ (lib : Nat) (front back : List Char) (files : List (List (List Char))),
        (files.map List.length).sum = 0 →
        naive_filtering_percent_of_dir lib front back files = none) ∧
    (∀ (naive_percent_filtered : Rat) (eval_stats : Statistics),
        eval_stats.seq_count = 0 →
        score_comparison naive_percent_filtered eval_stats = none) := by
  constructor
  · intro lib front back files h
    simp [naive_filtering_percent_of_dir, naive_totals_spec, h]
  · intro naive_percent_filtered eval_stats h
    unfold score_comparison
    simp [h]

/-- Witness for C7: the empty corpus and a zero-count evaluation. -/
theorem C7_empty_corpus_fatal_witness :
    naive_filtering_percent_of_dir LIB_LENGTH FRONT_PRIMER BACK_PRIMER [] = none ∧
    score_comparison 0 Statistics.init = none :=
  ⟨C7_empty_corpus_fatal.1 LIB_LENGTH FRONT_PRIMER BACK_PRIMER [] rfl,
    C7_empty_corpus_fatal.2 0 Statistics.init rfl⟩

theorem compare_scan_spec (al : Aligner) (idx_min full_min : Rat)
    (sequence_index sequence : List Char) :
    ∀ ds : List (List Char),
      (compare_scan al idx_min full_min sequence_index sequence ds =
          FOUND_VALID_MATCH ↔
        ∃ d ∈ ds, d.length ≠ 0 ∧
          idx_min ≤ al.alignScore sequence_index (d.take INDEX_LEN) ∧
          full_min ≤ al.alignScore sequence d) ∧
      compare_scan al idx_min full_min sequence_index sequence ds ≠
        NO_MATCH_FOUND := by
  intro ds
  induction ds with
  | nil => simp [compare_scan]
  | cons d rest ih =>
    by_cases hlen : d.length = 0
    · simp only [compare_scan, if_pos hlen]
      constructor
      · rw [ih.1]
        constructor
        · rintro ⟨e, he, hprop⟩
          exact ⟨e, List.mem_cons_of_mem d he, hprop⟩
        · rintro ⟨e, he, hprop⟩
          rcases List.mem_cons.mp he with rfl | he2
          · exact absurd hprop.1 (by simp [hlen])
          · exact ⟨e, he2, hprop⟩
      · exact ih.2
    · simp only [compare_scan, if_neg hlen]
      by_cases hidx : idx_min ≤ al.alignScore sequence_index (d.take INDEX_LEN)
      · rw [if_pos hidx]
        by_cases hfull : full_min ≤ al.alignScore sequence d
        · rw [if_pos hfull]
          constructor
          · constructor
            · intro
              exact ⟨d, List.mem_cons_self d rest, hlen, hidx, hfull⟩
            · intro
              rfl
          · simp
        · rw [if_neg hfull]
          constructor
          · rw [ih.1]
            constructor
            · rintro ⟨e, he, hprop⟩
              exact ⟨e, List.mem_cons_of_mem d he, hprop⟩
            · rintro ⟨e, he, hprop⟩
              rcases List.mem_cons.mp he with rfl | he2
              · exact absurd hprop.2.2 hfull
              · exact ⟨e, he2, hprop⟩
          · exact ih.2
      · rw [if_neg hidx]
        constructor
        · rw [ih.1]
          constructor
          · rintro ⟨e, he, hprop⟩
            exact ⟨e, List.mem_cons_of_mem d he, hprop⟩
          · rintro ⟨e, he, hprop⟩
            rcases List.mem_cons.mp he with rfl | he2
            · exact absurd hprop.2.1 hidx
            · exact ⟨e, he2, hprop⟩
        · exact ih.2

/-- C5: with the index minimum computed (as `run_filtering` does) by the
threshold formula at 0.85 and `INDEX_LEN`, the dataset validator returns
FOUND_VALID_MATCH iff some reference in the dataset (empty entries skipped)
has index-prefix score at or above that minimum and full-sequence score at
or above the formula's minimum at 0.85 and the candidate's length; otherwise
it returns FOUND_INVALID_MATCH, and it never returns NO_MATCH_FOUND. -/
theorem C5_dataset_validator (data_set_sequences : List (List Char))
    (compare_params : CompareParams) (sequence : List Char)
    (hidx : compare_params.min_valid_score =
      percentage_to_min_score compare_params.aligner 0.85 INDEX_LEN) :
    (compare_seq_to_dataset data_set_sequences compare_params sequence =
        FOUND_VALID_MATCH ↔
      ∃ d ∈ data_set_sequences, d.length ≠ 0 ∧
        percentage_to_min_score compare_params.aligner 0.85 INDEX_LEN ≤
          compare_params.aligner.alignScore (sequence.take INDEX_LEN)
            (d.take INDEX_LEN) ∧
        percentage_to_min_score compare_params.aligner 0.85 sequence.length ≤
          compare_params.aligner.alignScore sequence d) ∧
    (compare_seq_to_dataset data_set_sequences compare_params sequence =
        FOUND_VALID_MATCH ∨
      compare_seq_to_dataset data_set_sequences compare_params sequence =
        FOUND_INVALID_MATCH) := by
  have h := compare_scan_spec compare_params.aligner
    compare_params.min_valid_score
    (percentage_to_min_score compare_params.aligner 0.85 sequence.length)
    (sequence.take INDEX_LEN) sequence data_set_sequences
  constructor
  · rw [show compare_seq_to_dataset data_set_sequences compare_params sequence =
      compare_scan compare_params.aligner compare_params.min_valid_score
        (percentage_to_min_score compare_params.aligner 0.85 sequence.length)
        (sequence.take INDEX_LEN) sequence data_set_sequences from rfl, h.1, hidx]
  · have h2 := h.2
    cases hc : compare_scan compare_params.aligner compare_params.min_valid_score
        (percentage_to_min_score compare_params.aligner 0.85 sequence.length)
        (sequence.take INDEX_LEN) sequence data_set_sequences with
    | FOUND_VALID_MATCH => exact Or.inl hc
    | FOUND_INVALID_MATCH => exact Or.inr hc
    | NO_MATCH_FOUND => exact absurd hc h2

/-- Witness for C5: a one-entry dataset whose oracle scores pass both
tiers. -/
theorem C5_dataset_validator_witness :
    compare_seq_to_dataset [['A']] sample_compare_params ['A'] =
      FOUND_VALID_MATCH := by
  have h := C5_dataset_validator [['A']] sample_compare_params ['A'] rfl
  refine h.1.mpr ⟨['A'], by simp, by simp, ?_, ?_⟩ <;>
    norm_num [sample_compare_params, sample_global_aligner,
      percentage_to_min_score, INDEX_LEN]

/-- C4 counterexample: the front-primer window `[4, 8)` of the read
"AAAATTTT" (length 8) does not run past the read's end — it exactly reaches
it — yet the source's `end_pos >= len(sequence)` check skips it, so the
locator reports a miss instead of validating the candidate. -/
theorem C4_boundary_window_rejected :
    search_single_front_primer_helper 4 (fun _ => FOUND_VALID_MATCH)
      "AAAATTTT".toList false [(0, 4)] = NO_MATCH_FOUND ∧
    4 + 4 ≤ "AAAATTTT".toList.length := by
  constructor
  · rfl
  · decide

/-- C4 amended: a front-primer-only candidate is rejected exactly when
`f_end + expected_length ≥ len(read)` (the window runs past or exactly
reaches the read's end), and a back-primer-only candidate exactly when
`b_start − expected_length < 0`; every rejected candidate is skipped and the
scan proceeds to the next qualifying alignment (the first accepted
candidate is validated, otherwise the stage reports NO_MATCH_FOUND), and no
error is raised (the functions are total). -/
theorem C4_single_primer_window_policy :
    (∀ (lib : Nat) (validate : List Char → MatchResult) (sequence : List Char)
        (is_reversed : Bool) (aligns : List (Nat × Nat)),
      search_single_front_primer_helper lib validate sequence is_reversed
          aligns =
        match aligns.find? fun a => decide (a.2 + lib < sequence.length) with
        | some a =>
          validate
            (if is_reversed then
              copy_reverse_complement
                (pySlice sequence (a.2 : Int) ((a.2 + lib : Nat) : Int))
            else pySlice sequence (a.2 : Int) ((a.2 + lib : Nat) : Int))
        | none => NO_MATCH_FOUND) ∧
    (∀ (lib : Nat) (validate : List Char → MatchResult) (sequence : List Char)
        (is_reversed : Bool) (aligns : List (Nat × Nat)),
      search_single_back_primer_helper lib validate sequence is_reversed
          aligns =
        match aligns.find? fun a => decide (lib ≤ a.1) with
        | some a =>
          validate
            (if is_reversed then
              copy_reverse_complement
                (pySlice sequence ((a.1 : Int) - (lib : Int)) (a.1 : Int))
            else pySlice sequence ((a.1 : Int) - (lib : Int)) (a.1 : Int))
        | none => NO_MATCH_FOUND) := by
  constructor
  · intro lib validate sequence is_reversed aligns
    induction aligns with
    | nil => rfl
    | cons a rest ih =>
      by_cases h : a.2 + lib < sequence.length
      · have hns : ¬ sequence.length ≤ a.2 + lib := by omega
        simp [search_single_front_primer_helper, List.find?_cons, h, hns]
      · have hs : sequence.length ≤ a.2 + lib := by omega
        simp only [search_single_front_primer_helper, if_pos hs, ih,
          List.find?_cons, decide_eq_false h]
  · intro lib validate sequence is_reversed aligns
    induction aligns with
    | nil => rfl
    | cons a rest ih =>
      by_cases h : lib ≤ a.1
      · have hns : ¬ ((a.1 : Int) - (lib : Int) < 0) := by omega
        simp [search_single_back_primer_helper, List.find?_cons, h, hns]
      · have hs : (a.1 : Int) - (lib : Int) < 0 := by omega
        simp only [search_single_back_primer_helper, if_pos hs, ih,
          List.find?_cons, decide_eq_false h]

/-- C3: in the alignment-based dual-primer stage, forward orientation is
tried before reverse-complement; within an orientation the winning candidate
is the first qualifying (front, back) alignment pair in
front-alignment-major, back-alignment-minor order (distance
`b_start − f_end` within `[lib − 5, lib + 5]`); the candidate insert is
`sequence[f_end:b_start]`, reverse-complemented exactly when the match came
from the reverse-complement primer set; and the stage's result is the
dataset validator's verdict on that insert.  The hypothesis records that the
validator (`compare_seq_to_dataset`) never reports NO_MATCH_FOUND, which is
proved in the C5 development. -/
theorem C3_dual_primer_stage (lib : Nat) (validate : List Char → MatchResult)
    (sequence : List Char)
    (valid_alignments valid_alignments_rc : List (Nat × Nat) × List (Nat × Nat))
    (hv : ∀ s, validate s ≠ NO_MATCH_FOUND) :
    search_both_primers lib validate sequence valid_alignments
        valid_alignments_rc =
      match firstQualifyingPair lib valid_alignments.1 valid_alignments.2 with
      | some p => validate (pySlice sequence (p.1.2 : Int) (p.2.1 : Int))
      | none =>
        match firstQualifyingPair lib valid_alignments_rc.1
            valid_alignments_rc.2 with
        | some p =>
          validate
            (copy_reverse_complement (pySlice sequence (p.1.2 : Int) (p.2.1 : Int)))
        | none => NO_MATCH_FOUND := by
  unfold search_both_primers
  rw [search_both_primers_helper_eq, search_both_primers_helper_eq]
  cases firstQualifyingPair lib valid_alignments.1 valid_alignments.2 with
  | some p => simp [hv]
  | none =>
    cases firstQualifyingPair lib valid_alignments_rc.1 valid_alignments_rc.2 with
    | some p => simp [hv]
    | none => simp

/-- Witness for C3: a concrete sequence, one qualifying forward pair, and a
validator that always reports FOUND_INVALID_MATCH. -/
theorem C3_dual_primer_stage_witness :
    search_both_primers 4 (fun _ => FOUND_INVALID_MATCH) "AAAATTTTAAAA".toList
      ([(0, 4)], [(8, 12)]) ([], []) = FOUND_INVALID_MATCH := by
  have h := C3_dual_primer_stage 4 (fun _ => FOUND_INVALID_MATCH)
    "AAAATTTTAAAA".toList ([(0, 4)], [(8, 12)]) ([], [])
    (fun _ hcon => MatchResult.noConfusion hcon)
  exact h.trans (by decide)

/-- C1 (code evaluation at the failing input): the perfect-adapter read —
configured front primer, 140-base insert, configured back primer — contains
both primers exactly, non-overlapping, in order (front occurrence `[0, 33)`,
back occurrence starting at 173), and the gap between the end of the front
primer and the start of the back primer is `173 − 33 = 140 = LIB_LENGTH`,
within the tolerance window; yet `search_exact_match` rejects the read for
both primer orientations, because the source sets
`f_end = sequence.find(front_primer)` — the *start* of the occurrence — and
so tests `b_start − f_start = 173` against the window. -/
theorem C1_exact_path_misses_perfect_read :
    pyFind perfect_adapter_read FRONT_PRIMER = 0 ∧
    pyFind perfect_adapter_read BACK_PRIMER = 173 ∧
    FRONT_PRIMER.length = 33 ∧
    (LIB_LENGTH : Int) - 5 ≤ 173 - (0 + 33) ∧
    ((173 : Int) - (0 + 33)) ≤ (LIB_LENGTH : Int) + 5 ∧
    search_exact_match LIB_LENGTH perfect_adapter_read
      (FRONT_PRIMER, BACK_PRIMER) = none ∧
    search_exact_match LIB_LENGTH perfect_adapter_read
      (copy_reverse_complement BACK_PRIMER,
        copy_reverse_complement FRONT_PRIMER) = none := by
  refine ⟨rfl, rfl, rfl, by decide, by decide, rfl, rfl⟩

/-- C2 (code evaluation at the failing input): for the read "AAAATTTTAAAA"
with front and back primer "AAAA" and expected length 4, the locator does
return FOUND_VALID_MATCH through the exact-match path (for any aligner
oracle and any validator), but the insert the path carves out is
`sequence[0:0] = ""` — both `find` calls return 0, the start of the first
"AAAA" occurrence — not "TTTT" as the specification's example states. -/
theorem C2_exact_path_carves_empty_insert :
    (∀ (get_valid : List Char × List Char → List (Nat × Nat) × List (Nat × Nat))
        (validate : List Char → MatchResult),
      search_seq_and_write 4 ("AAAA".toList, "AAAA".toList) get_valid validate
        "AAAATTTTAAAA".toList = FOUND_VALID_MATCH) ∧
    search_exact_match 4 "AAAATTTTAAAA".toList
      ("AAAA".toList, "AAAA".toList) = some [] ∧
    ([] : List Char) ≠ "TTTT".toList := by
  exact ⟨fun _ _ => rfl, rfl, by decide⟩

theorem process_file_conservation (classify : List Char → MatchResult)
    (seqs : List (List Char)) (name : String) :
    stats_conservation (process_file classify seqs name) := by
  unfold stats_conservation process_file
  simpa using classify_counts_sum classify seqs

theorem accumulate_stats_conservation (ev fs : Statistics)
    (h1 : stats_conservation ev) (h2 : stats_conservation fs) :
    stats_conservation (accumulate_stats ev fs) := by
  unfold stats_conservation at h1 h2 ⊢
  simp only [accumulate_stats]
  split <;> simp <;> omega

theorem foldl_accumulate_conservation :
    ∀ (l : List Statistics) (ev : Statistics), stats_conservation ev →
      (∀ fs ∈ l, stats_conservation fs) →
      stats_conservation (l.foldl accumulate_stats ev) := by
  intro l
  induction l with
  | nil => intro ev hev _; exact hev
  | cons fs rest ih =>
    intro ev hev hl
    rw [List.foldl_cons]
    exact ih (accumulate_stats ev fs)
      (accumulate_stats_conservation ev fs hev (hl fs (List.mem_cons_self fs rest)))
      (fun g hg => hl g (List.mem_cons_of_mem fs hg))

/-- C9: `percent_filtered` of a processed file is 0 when `seq_count` is 0
and `(filtered_out_count / seq_count) * 100` otherwise; it always lies in
[0, 100]; and every naive filtering percentage the naive filter returns lies
in [0, 100]. -/
theorem C9_percent_filtered_range :
    (∀ (classify : List Char → MatchResult) (seqs : List (List Char))
        (name : String),
      (process_file classify seqs name).percent_filtered =
        if (process_file classify seqs name).seq_count = 0 then 0
        else ((process_file classify seqs name).filtered_out_count : Rat) /
            ((process_file classify seqs name).seq_count : Rat) * 100) ∧
    (∀ (classify : List Char → MatchResult) (seqs : List (List Char))
        (name : String),
      0 ≤ (process_file classify seqs name).percent_filtered ∧
        (process_file classify seqs name).percent_filtered ≤ 100) ∧
    (∀ (lib : Nat) (front back : List Char)
        (files : List (List (List Char))) (p : Rat),
      naive_filtering_percent_of_dir lib front back files = some p →
      0 ≤ p ∧ p ≤ 100) := by
  refine ⟨?_, ?_, ?_⟩
  · intro classify seqs name
    by_cases h : seqs.length = 0 <;> simp [process_file, h]
  · intro classify seqs name
    by_cases h : seqs.length = 0
    · simp [process_file, h]
    · have hle : (classify_counts classify seqs).2.2 ≤ seqs.length := by
        have := classify_counts_sum classify seqs
        omega
      have hb := ratio_percent_bounds (classify_counts classify seqs).2.2
        seqs.length hle (by omega)
      simpa [process_file, h] using hb
  · intro lib front back files p hp
    simp only [naive_filtering_percent_of_dir, naive_totals_spec,
      Nat.zero_add] at hp
    by_cases h : 0 < (files.map List.length).sum
    · rw [if_pos h] at hp
      have hle : (files.map fun s =>
          naive_count_filtered lib front back
            (copy_reverse_complement back) (copy_reverse_complement front) s).sum ≤
          (files.map List.length).sum :=
        List.sum_le_sum fun s _ => naive_count_filtered_le lib front back
          (copy_reverse_complement back) (copy_reverse_complement front) s
      have hb := ratio_percent_bounds _ _ hle h
      rw [Option.some_inj] at hp
      rw [← hp]
      exact hb
    · rw [if_neg h] at hp
      exact absurd hp (by simp)

/-- Witness for C9: the naive percentage of a one-file, one-read corpus in
which the read is filtered is 100, inside [0, 100]. -/
theorem C9_percent_filtered_range_witness : (0 : Rat) ≤ 100 ∧ (100 : Rat) ≤ 100 :=
  C9_percent_filtered_range.2.2 4 "AAAA".toList "AAAA".toList [[['A']]] 100
    (by
      have h1 : naive_search_and_write_seq 4 ['A'] ['A', 'A', 'A', 'A']
          ['A', 'A', 'A', 'A'] = false := rfl
      have h2 : naive_search_and_write_seq 4 ['A']
          (copy_reverse_complement ['A', 'A', 'A', 'A'])
          (copy_reverse_complement ['A', 'A', 'A', 'A']) = false := rfl
      simp [naive_filtering_percent_of_dir, naive_totals_spec,
        naive_filtering_of_file, naive_count_filtered, h1, h2])

/-- C10: for every processed file,
`filtered_out_count + valid_seq_count + invalid_seq_count = seq_count`, and
the aggregate evaluation statistics, formed by summing the per-file counters
as `run_filtering` does, satisfy the same equation. -/
theorem C10_counter_conservation (classify : List Char → MatchResult)
    (files : List (List (List Char))) :
    (∀ seqs ∈ files, stats_conservation (process_file classify seqs "")) ∧
    stats_conservation
      (aggregate_stats (files.map fun seqs => process_file classify seqs "")) := by
  constructor
  · intro seqs _
    exact process_file_conservation classify seqs ""
  · unfold aggregate_stats
    refine foldl_accumulate_conservation _ Statistics.init rfl ?_
    intro fs hfs
    rcases List.mem_map.mp hfs with ⟨seqs, _, rfl⟩
    exact process_file_conservation classify seqs ""

/-- Witness for C10 on a concrete one-file corpus. -/
theorem C10_counter_conservation_witness :
    stats_conservation
      (aggregate_stats ([[['A']]].map fun seqs =>
        process_file (fun _ => FOUND_VALID_MATCH) seqs "")) :=
  (C10_counter_conservation (fun _ => FOUND_VALID_MATCH) [[['A']]]).2
